import Mathlib

/-!
Shallow embedding of the meeting-room booking backend's reservation core
(`ReservationService` and `ReservationHandler`): data model, reservation
creation with overlap checking and cost calculation, cost pre-calculation,
reservation detail reads, and status updates, together with the handler's
mapping of service error strings to HTTP status codes.

Modelling conventions: time instants are integers (seconds), monetary
amounts are rationals, identifiers are naturals, statuses are the strings
the code stores ("pending", "confirmed", "cancelled", "completed",
"available"). Database tables are lists of records; each service method is
a pure function from a database state and a request to an `Except` of an
error string (the `fmt.Errorf` message) or a result.
-/

instance {ε α : Type} [DecidableEq ε] [DecidableEq α] :
    DecidableEq (Except ε α) := fun a b =>
  match a, b with
  | .error x, .error y =>
    if h : x = y then .isTrue (by rw [h])
    else .isFalse (fun hc => h (by injection hc))
  | .ok x, .ok y =>
    if h : x = y then .isTrue (by rw [h])
    else .isFalse (fun hc => h (by injection hc))
  | .error _, .ok _ => .isFalse (fun hc => Except.noConfusion hc)
  | .ok _, .error _ => .isFalse (fun hc => Except.noConfusion hc)

structure Room where
  id : Nat
  name : String
  capacity : Int
  pricePerHour : Rat
  status : String
  deriving DecidableEq

structure Reservation where
  id : Nat
  roomID : Nat
  userID : Nat
  startTime : Int
  endTime : Int
  visitorCount : Int
  price : Rat
  status : String
  deriving DecidableEq

structure Snack where
  id : Nat
  name : String
  category : String
  price : Rat
  deriving DecidableEq

structure ReservationSnack where
  reservationID : Nat
  snackID : Nat
  quantity : Int
  price : Rat
  deriving DecidableEq

structure User where
  id : Nat
  username : String
  deriving DecidableEq

/-- One requested snack line: a (snack, quantity) pair in a request body. -/
structure SnackOrder where
  snackID : Nat
  quantity : Int
  deriving DecidableEq

structure CreateReservationRequest where
  roomID : Nat
  userID : Nat
  startTime : Int
  endTime : Int
  visitorCount : Int
  snacks : List SnackOrder
  deriving DecidableEq

structure CreateReservationResponse where
  reservationID : Nat
  status : String
  totalCost : Rat
  createdAt : Int
  deriving DecidableEq

structure ReservationCalculationRequest where
  roomID : Nat
  snacks : List SnackOrder
  startTime : Int
  endTime : Int
  deriving DecidableEq

structure CalcRoomInfo where
  id : Nat
  name : String
  pricePerHour : Rat
  totalHours : Rat
  totalCost : Rat
  deriving DecidableEq

/-- A per-snack line in a calculation or detail response. -/
structure SnackLine where
  id : Nat
  name : String
  category : String
  price : Rat
  quantity : Int
  subtotal : Rat
  deriving DecidableEq

structure ReservationCalculationResponse where
  room : CalcRoomInfo
  snacks : List SnackLine
  totalCost : Rat
  deriving DecidableEq

structure RoomDetailInfo where
  id : Nat
  name : String
  capacity : Int
  pricePerHour : Rat
  deriving DecidableEq

structure UserInfo where
  id : Nat
  username : String
  deriving DecidableEq

structure ReservationDetailResponse where
  id : Nat
  status : String
  startTime : Int
  endTime : Int
  visitorCount : Int
  price : Rat
  room : RoomDetailInfo
  user : UserInfo
  snacks : List SnackLine
  totalCost : Rat
  deriving DecidableEq

structure RoomInfo where
  capacity : Int
  pricePerHour : Rat
  deriving DecidableEq

structure ReservationEvent where
  id : Nat
  roomID : Nat
  roomName : String
  roomDetails : RoomInfo
  userID : Nat
  username : String
  startTime : Int
  endTime : Int
  durationHours : Rat
  visitorCount : Int
  price : Rat
  status : String
  deriving DecidableEq

structure UpdateReservationStatusRequest where
  reservationID : Nat
  status : String
  deriving DecidableEq

/-- The database: one list per table, plus the id the next `INSERT ...
RETURNING id` will hand out. -/
structure DBState where
  rooms : List Room
  users : List User
  snacks : List Snack
  reservations : List Reservation
  reservationSnacks : List ReservationSnack
  nextID : Nat
  deriving DecidableEq

/-- The three-clause overlap test of `CreateReservation`'s SQL `WHERE`
clause, for an existing row `[s,e)` against the candidate `[S,E)`:
`(start_time <= $2 AND end_time > $2) OR (start_time < $3 AND end_time >= $3)
OR (start_time >= $2 AND end_time <= $3)` with `$2 = S`, `$3 = E`. -/
def threeClauseOverlap (s e S E : Int) : Bool :=
  (decide (s ≤ S) && decide (e > S)) ||
  (decide (s < E) && decide (e ≥ E)) ||
  (decide (s ≥ S) && decide (e ≤ E))

/-- The spec's single intersection predicate: `[s,e)` conflicts with `[S,E)`
iff `s < E and e > S`. (Stated from the spec's words, for comparison with
the code's `threeClauseOverlap`.) -/
def specOverlapPred (s e S E : Int) : Prop :=
  s < E ∧ e > S

/-- `SELECT COUNT(*) FROM reservations WHERE room_id = $1 AND
status != 'cancelled' AND (...overlap...)`. -/
def overlappingCount (l : List Reservation) (roomID : Nat) (S E : Int) : Nat :=
  (l.filter (fun r =>
    r.roomID == roomID && r.status != "cancelled" &&
      threeClauseOverlap r.startTime r.endTime S E)).length

/-- `SELECT ... FROM rooms WHERE id = $1 AND status = 'available'`. -/
def findAvailableRoom (rooms : List Room) (roomID : Nat) : Option Room :=
  rooms.find? (fun rm => rm.id == roomID && rm.status == "available")

/-- The snack-matching loop shared by `CreateReservation` and
`CalculateReservationCost`: the query `SELECT ... FROM snacks WHERE id =
ANY($1)` returns each catalog snack whose id occurs among the requested
ids, and for each such row the loop takes the first request line with a
matching id (and its quantity), then breaks. A catalog snack with no
matching request line is dropped. -/
def matchedSnacks (catalog : List Snack) (lines : List SnackOrder) :
    List (Snack × Int) :=
  catalog.filterMap (fun s =>
    (lines.find? (fun l => l.snackID == s.id)).map (fun l => (s, l.quantity)))

/-- Running total accumulated by the snack loops: `totalSnackCost += price *
float64(quantity)`. -/
def snackCostTotal (matched : List (Snack × Int)) : Rat :=
  matched.foldl (fun acc p => acc + p.1.price * (p.2 : Rat)) 0

/-- The block of time-constraint checks that opens both
`CreateReservation` and `CalculateReservationCost`: start not in the past,
end after start, duration at least `30*time.Minute` and at most
`24*time.Hour`. Returns the first failing check's error message. -/
def validateReservationTimes (now S E : Int) : Option String :=
  if S < now then
    some "reservation start time must be in the future"
  else if ¬ (E > S) then
    some "reservation end time must be after start time"
  else if E - S < 30 * 60 then
    some "reservation must be at least 30 minutes long"
  else if E - S > 24 * 3600 then
    some "reservation cannot exceed 24 hours"
  else
    none

/-- `ReservationService.CreateReservation`. -/
def createReservation (now : Int) (st : DBState)
    (req : CreateReservationRequest) :
    Except String (DBState × CreateReservationResponse) :=
  match validateReservationTimes now req.startTime req.endTime with
  | some msg => .error msg
  | none =>
    match findAvailableRoom st.rooms req.roomID with
    | none => .error "room not found or inactive"
    | some room =>
      if req.visitorCount > room.capacity then
        .error ("visitor count exceeds room capacity of " ++
          toString room.capacity)
      else if overlappingCount st.reservations req.roomID
          req.startTime req.endTime > 0 then
        .error "room is already booked for the selected time period"
      else
        let hours : Rat := ((req.endTime - req.startTime : Int) : Rat) / 3600
        let roomCost := room.pricePerHour * hours
        let matched := matchedSnacks st.snacks req.snacks
        let totalCost := roomCost + snackCostTotal matched
        let resID := st.nextID
        let newRes : Reservation :=
          ⟨resID, req.roomID, req.userID, req.startTime, req.endTime,
            req.visitorCount, totalCost, "pending"⟩
        let newLines := matched.map (fun p =>
          ReservationSnack.mk resID p.1.id p.2 p.1.price)
        .ok ({ st with
                reservations := st.reservations ++ [newRes],
                reservationSnacks := st.reservationSnacks ++ newLines,
                nextID := st.nextID + 1 },
             ⟨resID, "pending", totalCost, now⟩)

/-- `ReservationService.CalculateReservationCost`. -/
def calculateReservationCost (now : Int) (st : DBState)
    (req : ReservationCalculationRequest) :
    Except String ReservationCalculationResponse :=
  match validateReservationTimes now req.startTime req.endTime with
  | some msg => .error msg
  | none =>
    match findAvailableRoom st.rooms req.roomID with
    | none => .error "room not found or inactive"
    | some room =>
      let hours : Rat := ((req.endTime - req.startTime : Int) : Rat) / 3600
      let roomCost := room.pricePerHour * hours
      let matched := matchedSnacks st.snacks req.snacks
      let snackLines := matched.map (fun p =>
        SnackLine.mk p.1.id p.1.name p.1.category p.1.price p.2
          (p.1.price * (p.2 : Rat)))
      .ok ⟨⟨room.id, room.name, room.pricePerHour, hours, roomCost⟩,
           snackLines,
           snackLines.foldl (fun acc sl => acc + sl.subtotal) roomCost⟩

/-- `ReservationService.GetReservationByID`: reservation row joined with its
room and user, plus the reservation's snack lines joined with the catalog
for name and category; line price and quantity come from the
`reservation_snacks` row, and the reported total is the stored
`reservations.price`. -/
def getReservationByID (st : DBState) (rid : Nat) :
    Except String ReservationDetailResponse :=
  match st.reservations.find? (fun r => r.id == rid) with
  | none => .error "reservation not found"
  | some r =>
    match st.rooms.find? (fun rm => rm.id == r.roomID),
          st.users.find? (fun u => u.id == r.userID) with
    | some rm, some u =>
      let lines :=
        (st.reservationSnacks.filter (fun rs => rs.reservationID == rid)).filterMap
          (fun rs => (st.snacks.find? (fun s => s.id == rs.snackID)).map
            (fun s => SnackLine.mk s.id s.name s.category rs.price rs.quantity
              (rs.price * (rs.quantity : Rat))))
      .ok ⟨r.id, r.status, r.startTime, r.endTime, r.visitorCount, r.price,
           ⟨rm.id, rm.name, rm.capacity, rm.pricePerHour⟩,
           ⟨u.id, u.username⟩, lines, r.price⟩
    | _, _ => .error "reservation not found"

/-- `models.ReservationStatus.IsValid`. -/
def isValidStatus (s : String) : Bool :=
  s == "pending" || s == "confirmed" || s == "cancelled" || s == "completed"

/-- `ReservationService.UpdateReservationStatus`: validate the status value,
`UPDATE reservations SET status = $1 WHERE id = $2` (not-found when zero
rows are affected), then re-read the updated row joined with its room and
user to build the returned event. -/
def updateReservationStatus (st : DBState)
    (req : UpdateReservationStatusRequest) :
    Except String (DBState × ReservationEvent) :=
  if ¬ isValidStatus req.status then
    .error "invalid status: must be one of pending, confirmed, cancelled, or completed"
  else if (st.reservations.filter (fun r => r.id == req.reservationID)).length = 0 then
    .error ("reservation not found with ID: " ++ toString req.reservationID)
  else
    let reservations := st.reservations.map (fun r =>
      if r.id == req.reservationID then { r with status := req.status } else r)
    let st1 : DBState := { st with reservations := reservations }
    match st1.reservations.find? (fun r => r.id == req.reservationID) with
    | none => .error "error fetching updated reservation"
    | some r =>
      match st1.rooms.find? (fun rm => rm.id == r.roomID),
            st1.users.find? (fun u => u.id == r.userID) with
      | some rm, some u =>
        .ok (st1,
          ⟨r.id, r.roomID, rm.name, ⟨rm.capacity, rm.pricePerHour⟩,
           r.userID, u.username, r.startTime, r.endTime,
           ((r.endTime - r.startTime : Int) : Rat) / 3600,
           r.visitorCount, r.price, r.status⟩)
      | _, _ => .error "error fetching updated reservation"

/-- `sub` occurs as a prefix of some suffix of the character list. -/
def infixOfAux (sub : List Char) : List Char → Bool
  | [] => sub.isEmpty
  | c :: cs => sub.isPrefixOf (c :: cs) || infixOfAux sub cs

/-- `strings.Contains`: `sub` occurs contiguously within `s`. -/
def strContains (s sub : String) : Bool :=
  infixOfAux sub.data s.data

/-- `ReservationHandler.UpdateReservationStatus`'s mapping from the service
error string to the HTTP status code. -/
def updateStatusHTTPCode (msg : String) : Nat :=
  if msg == "reservation not found" then 404
  else if strContains msg "invalid status" then 400
  else 500

/-- `ReservationHandler.CreateReservation`'s mapping from the service error
string to the HTTP status code. -/
def createReservationHTTPCode (msg : String) : Nat :=
  if msg == "room not found or inactive" then 404
  else if msg == "visitor count exceeds room capacity" then 400
  else if msg == "room is already booked for the selected time period" then 409
  else 500

/-- The catalog price of the snack with the given id (0 when absent). -/
def priceOf (catalog : List Snack) (sid : Nat) : Rat :=
  match catalog.find? (fun s => s.id == sid) with
  | some s => s.price
  | none => 0

/-- The spec's cost formula for the snack part: the sum over the requested
snack lines of the snack's catalog price times the requested quantity (a
line whose id is missing from the catalog contributes nothing). Stated from
the spec's words, for comparison with the code's accumulation. -/
def specSnackSubtotal (catalog : List Snack) (lines : List SnackOrder) : Rat :=
  (lines.map (fun l => priceOf catalog l.snackID * (l.quantity : Rat))).sum

/-- Two reservations violate the documented room-overlap invariant when they
are for the same room, neither is cancelled, and their `[start,end)`
intervals intersect. -/
def conflicting (a b : Reservation) : Bool :=
  a.roomID == b.roomID && a.status != "cancelled" && b.status != "cancelled" &&
    decide (a.startTime < b.endTime) && decide (b.startTime < a.endTime)

/-- The documented reservation-table invariant: every reservation has
`end time > start time`, and no two non-cancelled reservations for the same
room overlap. -/
def reservationInvariant (st : DBState) : Prop :=
  (∀ r ∈ st.reservations, r.startTime < r.endTime) ∧
    st.reservations.Pairwise (fun a b => conflicting a b = false)

instance : DecidablePred reservationInvariant := fun st => by
  unfold reservationInvariant
  exact instDecidableAnd

/-! ## Helper lemmas -/

/-- The SQL three-clause overlap test agrees with the plain intersection
test on well-formed intervals. -/
theorem threeClause_eq_intersect (s e S E : Int) (hse : s < e) (hSE : S < E) :
    threeClauseOverlap s e S E = true ↔ (s < E ∧ e > S) := by
  simp only [threeClauseOverlap, Bool.or_eq_true, Bool.and_eq_true,
    decide_eq_true_eq]
  omega

/-- A filter has positive length iff some member satisfies the predicate. -/
theorem filter_length_pos {α : Type} (l : List α) (p : α → Bool) :
    0 < (l.filter p).length ↔ ∃ x ∈ l, p x = true := by
  rw [List.length_pos]
  constructor
  · intro h
    rcases List.exists_mem_of_ne_nil _ h with ⟨x, hx⟩
    exact ⟨x, List.mem_of_mem_filter hx, List.of_mem_filter hx⟩
  · rintro ⟨x, hx, hpx⟩ hnil
    exact absurd (List.mem_filter.mpr ⟨hx, hpx⟩) (by simp [hnil])

/-- `overlappingCount` is positive iff some non-cancelled reservation for
the room passes the three-clause overlap test. -/
theorem overlappingCount_pos (l : List Reservation) (roomID : Nat) (S E : Int) :
    0 < overlappingCount l roomID S E ↔
      ∃ r ∈ l, r.roomID = roomID ∧ r.status ≠ "cancelled" ∧
        threeClauseOverlap r.startTime r.endTime S E = true := by
  unfold overlappingCount
  rw [filter_length_pos]
  constructor
  · rintro ⟨r, hr, hp⟩
    simp only [Bool.and_eq_true, beq_iff_eq, bne_iff_ne, ne_eq] at hp
    exact ⟨r, hr, hp.1.1, hp.1.2, hp.2⟩
  · rintro ⟨r, hr, h1, h2, h3⟩
    refine ⟨r, hr, ?_⟩
    simp only [Bool.and_eq_true, beq_iff_eq, bne_iff_ne, ne_eq]
    exact ⟨⟨h1, h2⟩, h3⟩

/-! ## C2: the three-clause overlap test refines the spec's intersection
predicate -/

/-- C2: for all intervals with `s < e` and `S < E`, the three-clause overlap
condition evaluated by `CreateReservation` holds iff the spec's single
intersection predicate `s < E and e > S` holds. -/
theorem overlap_threeClause_iff_spec (s e S E : Int) (hse : s < e)
    (hSE : S < E) :
    threeClauseOverlap s e S E = true ↔ specOverlapPred s e S E := by
  rw [threeClause_eq_intersect s e S E hse hSE]
  exact Iff.rfl

/-- Witness for C2 at `[1,3)` against `[0,2)`. -/
theorem overlap_threeClause_iff_spec_witness :
    (1 : Int) < 3 ∧ (0 : Int) < 2 ∧
      (threeClauseOverlap 1 3 0 2 = true ↔ specOverlapPred 1 3 0 2) :=
  ⟨by decide, by decide, overlap_threeClause_iff_spec 1 3 0 2 (by decide) (by decide)⟩

/-! ## C4: time-window validation -/

/-- The time constraints of the spec: duration at least 30 minutes, at most
24 hours, start not in the past. -/
def timeConstraintsOK (now S E : Int) : Prop :=
  1800 ≤ E - S ∧ E - S ≤ 86400 ∧ now ≤ S

instance (now S E : Int) : Decidable (timeConstraintsOK now S E) := by
  unfold timeConstraintsOK
  exact instDecidableAnd

/-- The time-validation block succeeds exactly on the spec's constraints. -/
theorem validateReservationTimes_eq_none (now S E : Int) :
    validateReservationTimes now S E = none ↔ timeConstraintsOK now S E := by
  unfold validateReservationTimes timeConstraintsOK
  split
  · simp; omega
  · split
    · simp; omega
    · split
      · simp; omega
      · split
        · simp; omega
        · simp_all
          try omega

/-- C4: `CreateReservation` and `CalculateReservationCost` reject with a
validation error whenever the duration is under 30 minutes, over 24 hours,
or the start time is in the past; a request violating none of these
constraints passes the time-validation block. -/
theorem timeValidation_create_calculate (now : Int) (st : DBState)
    (req : CreateReservationRequest) (creq : ReservationCalculationRequest)
    (hs : creq.startTime = req.startTime) (he : creq.endTime = req.endTime) :
    (¬ timeConstraintsOK now req.startTime req.endTime →
      ∃ msg, validateReservationTimes now req.startTime req.endTime =
          some msg ∧
        createReservation now st req = .error msg ∧
        calculateReservationCost now st creq = .error msg) ∧
    (timeConstraintsOK now req.startTime req.endTime →
      validateReservationTimes now req.startTime req.endTime = none) := by
  constructor
  · intro hviol
    have hv : validateReservationTimes now req.startTime req.endTime ≠ none := by
      intro h
      exact hviol ((validateReservationTimes_eq_none now _ _).mp h)
    rcases Option.ne_none_iff_exists.mp hv with ⟨msg, hmsg⟩
    refine ⟨msg, hmsg.symm, ?_, ?_⟩
    · unfold createReservation
      rw [← hmsg]
    · unfold calculateReservationCost
      rw [hs, he, ← hmsg]
  · intro hok
    exact (validateReservationTimes_eq_none now _ _).mpr hok

/-! ## Sample data for witnesses -/

def wRoom : Room := ⟨1, "Alpha", 10, 120, "available"⟩

def wSmallRoom : Room := ⟨2, "Box", 2, 50, "available"⟩

def wUser : User := ⟨7, "alice"⟩

def wChips : Snack := ⟨1, "Chips", "salty", 10⟩

def wSoda : Snack := ⟨2, "Soda", "drink", 5⟩

def wState : DBState := ⟨[wRoom, wSmallRoom], [wUser], [wChips, wSoda], [], [], 1⟩

def wC4req : CreateReservationRequest := ⟨1, 7, 100, 3700, 4, []⟩

def wC4creq : ReservationCalculationRequest := ⟨1, [], 100, 3700⟩

/-- Witness for C4: on a valid request the time-validation block passes. -/
theorem timeValidation_create_calculate_witness :
    validateReservationTimes 0 100 3700 = none :=
  (timeValidation_create_calculate 0 wState wC4req wC4creq rfl rfl).2 (by decide)

/-! ## C5: visitor count above room capacity always rejects -/

/-- C5: whenever the visitor count exceeds the capacity of every room with
the requested id, `CreateReservation` fails and no reservation is created,
regardless of the interval's validity or freedom from conflicts. -/
theorem createReservation_capacity_reject (now : Int) (st : DBState)
    (req : CreateReservationRequest)
    (hcap : ∀ room ∈ st.rooms, room.id = req.roomID →
      req.visitorCount > room.capacity) :
    (createReservation now st req).isOk = false := by
  unfold createReservation findAvailableRoom
  split
  · rfl
  · split
    · rfl
    · next room heq =>
      have hmem := List.mem_of_find?_eq_some heq
      have hp := List.find?_some heq
      simp only [Bool.and_eq_true, beq_iff_eq] at hp
      rw [if_pos (hcap room hmem hp.1)]
      rfl

def wC5req : CreateReservationRequest := ⟨2, 7, 100, 3700, 3, []⟩

/-- Witness for C5: three visitors in a two-person room are rejected. -/
theorem createReservation_capacity_reject_witness :
    (createReservation 0 wState wC5req).isOk = false :=
  createReservation_capacity_reject 0 wState wC5req (by decide)

instance (s e S E : Int) : Decidable (specOverlapPred s e S E) := by
  unfold specOverlapPred
  exact instDecidableAnd

/-! ## C1: conflicts are rejected with the conflict error class; cancelled
reservations are excluded from the check -/

/-- C1: for a request that passes the time validation against an available
room with sufficient capacity, if some existing non-cancelled reservation
for the room intersects the candidate interval then `CreateReservation`
fails with the conflict error, which the handler maps to HTTP 409; and if
no non-cancelled reservation intersects it (cancelled ones may), creation
succeeds. -/
theorem createReservation_conflict (now : Int) (st : DBState)
    (req : CreateReservationRequest) (room : Room)
    (hwf : ∀ r ∈ st.reservations, r.startTime < r.endTime)
    (htime : timeConstraintsOK now req.startTime req.endTime)
    (hroom : findAvailableRoom st.rooms req.roomID = some room)
    (hcap : req.visitorCount ≤ room.capacity) :
    ((∃ r ∈ st.reservations, r.roomID = req.roomID ∧ r.status ≠ "cancelled" ∧
        specOverlapPred r.startTime r.endTime req.startTime req.endTime) →
      createReservation now st req =
          .error "room is already booked for the selected time period" ∧
        createReservationHTTPCode
          "room is already booked for the selected time period" = 409) ∧
    ((∀ r ∈ st.reservations, r.roomID = req.roomID → r.status ≠ "cancelled" →
        ¬ specOverlapPred r.startTime r.endTime req.startTime req.endTime) →
      (createReservation now st req).isOk = true) := by
  have hSE : req.startTime < req.endTime := by
    rcases htime with ⟨h1, _, _⟩
    omega
  have hval : validateReservationTimes now req.startTime req.endTime = none :=
    (validateReservationTimes_eq_none now _ _).mpr htime
  constructor
  · rintro ⟨r, hr, hroomEq, hstat, hov⟩
    unfold createReservation
    rw [hval, hroom]
    dsimp only
    rw [if_neg (by omega), if_pos]
    · exact ⟨rfl, by decide⟩
    · rw [gt_iff_lt, overlappingCount_pos]
      refine ⟨r, hr, hroomEq, hstat, ?_⟩
      exact (threeClause_eq_intersect _ _ _ _ (hwf r hr) hSE).mpr hov
  · intro hno
    unfold createReservation
    rw [hval, hroom]
    dsimp only
    rw [if_neg (by omega), if_neg]
    · rfl
    · rw [gt_iff_lt, overlappingCount_pos]
      rintro ⟨r, hr, hroomEq, hstat, hov⟩
      exact hno r hr hroomEq hstat
        ((threeClause_eq_intersect _ _ _ _ (hwf r hr) hSE).mp hov)

/-- A cancelled reservation occupying `[100,3700)` in room 1. -/
def wCancelledRes : Reservation := ⟨5, 1, 7, 100, 3700, 3, 120, "cancelled"⟩

def wC1state : DBState := ⟨[wRoom], [wUser], [wChips], [wCancelledRes], [], 6⟩

/-- Witness for C1: booking the interval freed by a cancelled reservation
succeeds. -/
theorem createReservation_conflict_witness :
    (createReservation 0 wC1state wC4req).isOk = true :=
  (createReservation_conflict 0 wC1state wC4req wRoom (by decide) (by decide)
    (by decide) (by decide)).2 (by decide)

/-! ## C9: every created reservation starts as "pending" -/

/-- C9: whenever `CreateReservation` succeeds, the response reports status
"pending" and the persisted row is appended with status "pending" and the
returned id; no other initial status is possible. -/
theorem createReservation_status_pending (now : Int) (st : DBState)
    (req : CreateReservationRequest) (st2 : DBState)
    (resp : CreateReservationResponse)
    (h : createReservation now st req = .ok (st2, resp)) :
    resp.status = "pending" ∧
      ∃ r, st2.reservations = st.reservations ++ [r] ∧ r.status = "pending" ∧
        r.id = resp.reservationID := by
  unfold createReservation at h
  split at h
  · simp at h
  · split at h
    · simp at h
    · split at h
      · simp at h
      · split at h
        · simp at h
        · simp only [Except.ok.injEq, Prod.mk.injEq] at h
          obtain ⟨hst, hresp⟩ := h
          subst hst
          subst hresp
          refine ⟨rfl, ⟨_, rfl, rfl, rfl⟩⟩

def wC9state : DBState :=
  ⟨[wRoom, wSmallRoom], [wUser], [wChips, wSoda],
    [⟨1, 1, 7, 100, 3700, 4, 120, "pending"⟩], [], 2⟩

def wC9resp : CreateReservationResponse := ⟨1, "pending", 120, 0⟩

/-- Witness for C9: a concrete successful creation yields status
"pending". -/
theorem createReservation_status_pending_witness :
    createReservation 0 wState wC4req = .ok (wC9state, wC9resp) ∧
      (wC9resp.status = "pending" ∧
        ∃ r, wC9state.reservations = wState.reservations ++ [r] ∧
          r.status = "pending" ∧ r.id = wC9resp.reservationID) :=
  ⟨by with_unfolding_all rfl,
   createReservation_status_pending 0 wState wC4req wC9state wC9resp
     (by with_unfolding_all rfl)⟩

/-! ## C7: a status update for a missing reservation maps to HTTP 500, not
404 -/

/-- C7 (divergence witness): `UpdateReservationStatus` reports a missing
reservation as `reservation not found with ID: <id>`, but the handler's
not-found branch matches only the exact string `reservation not found`, so
the error falls through to the internal-error mapping: the response status
is 500, not the not-found status 404 the spec prescribes. -/
theorem updateStatus_notFound_maps_to_500 :
    updateReservationStatus wState ⟨42, "confirmed"⟩ =
        .error "reservation not found with ID: 42" ∧
      updateStatusHTTPCode "reservation not found with ID: 42" = 500 ∧
      (500 : Nat) ≠ 404 :=
  ⟨by with_unfolding_all rfl, by with_unfolding_all rfl, by decide⟩

/-! ## C8: snack prices are copied at booking time -/

/-- A later catalog price change: every snack keeps its id, name and
category, but its price is replaced arbitrarily. -/
def updateSnackPrices (f : Nat → Rat) (st : DBState) : DBState :=
  { st with snacks := st.snacks.map (fun s => { s with price := f s.id }) }

/-- `find?` by id is unaffected by a price-only rewrite of the catalog,
up to rewriting the found snack. -/
theorem find?_updateSnackPrices (l : List Snack) (f : Nat → Rat) (x : Nat) :
    (l.map (fun s => { s with price := f s.id })).find? (fun s => s.id == x) =
      (l.find? (fun s => s.id == x)).map
        (fun s => { s with price := f s.id }) := by
  induction l with
  | nil => rfl
  | cons a as ih =>
    simp only [List.map_cons, List.find?_cons]
    by_cases h : (a.id == x) = true
    · simp [h]
    · simp [h, ih]

/-- Reading a reservation is unaffected by later catalog price changes:
line prices, quantities and subtotals come from the stored
`reservation_snacks` rows and the reported total from the stored
reservation price; the catalog is consulted only for names and
categories. -/
theorem getReservationByID_price_frame (f : Nat → Rat) (st : DBState)
    (rid : Nat) :
    getReservationByID (updateSnackPrices f st) rid =
      getReservationByID st rid := by
  unfold getReservationByID updateSnackPrices
  dsimp only
  simp only [find?_updateSnackPrices, Option.map_map]
  rfl

/-- C8: after a successful creation, every stored snack line either
pre-existed or carries a copy of some catalog snack's price at booking
time, and reading the created reservation returns the same detail response
after any later catalog price change. -/
theorem createReservation_snackPrice_copied (now : Int) (st st2 : DBState)
    (req : CreateReservationRequest) (resp : CreateReservationResponse)
    (h : createReservation now st req = .ok (st2, resp)) (f : Nat → Rat) :
    (∀ rs ∈ st2.reservationSnacks, rs ∈ st.reservationSnacks ∨
      ∃ s ∈ st.snacks, s.id = rs.snackID ∧ rs.price = s.price) ∧
    getReservationByID (updateSnackPrices f st2) resp.reservationID =
      getReservationByID st2 resp.reservationID := by
  refine ⟨?_, getReservationByID_price_frame f st2 resp.reservationID⟩
  unfold createReservation at h
  split at h
  · simp at h
  · split at h
    · simp at h
    · split at h
      · simp at h
      · split at h
        · simp at h
        · simp only [Except.ok.injEq, Prod.mk.injEq] at h
          obtain ⟨hst, -⟩ := h
          subst hst
          intro rs hrs
          rcases List.mem_append.mp hrs with h1 | h2
          · exact .inl h1
          · right
            rcases List.mem_map.mp h2 with ⟨p, hp, hrs_eq⟩
            rcases List.mem_filterMap.mp hp with ⟨s, hs, hsome⟩
            cases hfind : req.snacks.find? (fun l => l.snackID == s.id) with
            | none => rw [hfind] at hsome; simp at hsome
            | some l =>
              rw [hfind] at hsome
              simp only [Option.map_some', Option.some.injEq] at hsome
              subst hsome
              subst hrs_eq
              exact ⟨s, hs, rfl, rfl⟩

def wC8req : CreateReservationRequest := ⟨1, 7, 100, 3700, 4, [⟨1, 2⟩]⟩

def wC8state2 : DBState :=
  ⟨[wRoom, wSmallRoom], [wUser], [wChips, wSoda],
    [⟨1, 1, 7, 100, 3700, 4, 140, "pending"⟩], [⟨1, 1, 2, 10⟩], 2⟩

def wC8resp : CreateReservationResponse := ⟨1, "pending", 140, 0⟩

/-- Witness for C8: a concrete booking with two bags of chips copies the
catalog price 10 into the stored line, and a later price change leaves the
read-back detail response unchanged. -/
theorem createReservation_snackPrice_copied_witness :
    createReservation 0 wState wC8req = .ok (wC8state2, wC8resp) ∧
      ((∀ rs ∈ wC8state2.reservationSnacks, rs ∈ wState.reservationSnacks ∨
          ∃ s ∈ wState.snacks, s.id = rs.snackID ∧ rs.price = s.price) ∧
        getReservationByID (updateSnackPrices (fun _ => 999) wC8state2)
            wC8resp.reservationID =
          getReservationByID wC8state2 wC8resp.reservationID) :=
  ⟨by with_unfolding_all rfl,
   createReservation_snackPrice_copied 0 wState wC8state2 wC8req wC8resp
     (by with_unfolding_all rfl) (fun _ => 999)⟩

/-! ## C10: request lines naming unknown snack ids are silently dropped -/

/-- Filtering out elements the search predicate can never accept does not
change `find?`. -/
theorem find?_filter_of_imp {α : Type} (l : List α) (p q : α → Bool)
    (h : ∀ a, p a = true → q a = true) :
    (l.filter q).find? p = l.find? p := by
  induction l with
  | nil => rfl
  | cons a as ih =>
    by_cases hq : q a = true
    · rw [List.filter_cons_of_pos hq]
      simp only [List.find?_cons]
      cases hp : p a
      · exact ih
      · rfl
    · have hp : p a = false := by
        cases hpa : p a
        · rfl
        · exact absurd (h a hpa) hq
      rw [List.filter_cons_of_neg (by simpa using hq)]
      simp only [List.find?_cons, hp, cond_false]
      exact ih

/-- Dropping the request lines whose snack id is absent from the catalog
leaves the matched-snack list unchanged. -/
theorem matchedSnacks_filter_known (catalog : List Snack)
    (lines : List SnackOrder) :
    matchedSnacks catalog
        (lines.filter (fun l => catalog.any (fun s => s.id == l.snackID))) =
      matchedSnacks catalog lines := by
  unfold matchedSnacks
  apply List.filterMap_congr
  intro s hs
  rw [find?_filter_of_imp]
  intro l hl
  rw [List.any_eq_true]
  refine ⟨s, hs, ?_⟩
  simp only [beq_iff_eq] at hl ⊢
  omega

/-- C10: a requested snack line whose id is missing from the catalog is
silently ignored by both `CreateReservation` and
`CalculateReservationCost`: each behaves exactly as on the request with
those lines removed, so the unknown line causes no not-found failure,
contributes nothing to the total, and yields no stored or returned line
item. -/
theorem unknownSnackLines_ignored (now : Int) (st : DBState)
    (req : CreateReservationRequest) (creq : ReservationCalculationRequest) :
    createReservation now st
        { req with snacks :=
            req.snacks.filter (fun l =>
              st.snacks.any (fun s => s.id == l.snackID)) } =
      createReservation now st req ∧
    calculateReservationCost now st
        { creq with snacks :=
            creq.snacks.filter (fun l =>
              st.snacks.any (fun s => s.id == l.snackID)) } =
      calculateReservationCost now st creq := by
  constructor
  · unfold createReservation
    dsimp only
    rw [matchedSnacks_filter_known]
  · unfold calculateReservationCost
    dsimp only
    rw [matchedSnacks_filter_known]

/-! ## C3: total cost equals room cost plus snack subtotal -/

/-- Folding `acc + f x` from `a` equals `a` plus the sum of the images. -/
theorem foldl_add_eq_sum {α : Type} (f : α → Rat) (l : List α) (a : Rat) :
    l.foldl (fun acc x => acc + f x) a = a + (l.map f).sum := by
  induction l generalizing a with
  | nil => simp
  | cons x xs ih =>
    simp only [List.foldl_cons, List.map_cons, List.sum_cons, ih (a + f x)]
    ring

/-- The snack-loop accumulator equals the sum of `price * quantity` over the
matched snacks. -/
theorem snackCostTotal_eq_sum (matched : List (Snack × Int)) :
    snackCostTotal matched =
      (matched.map (fun p => p.1.price * (p.2 : Rat))).sum := by
  have h := foldl_add_eq_sum (fun p : Snack × Int => p.1.price * (p.2 : Rat))
    matched 0
  simpa [snackCostTotal] using h

theorem priceOf_cons_pos (c : Snack) (cs : List Snack) (x : Nat)
    (h : (c.id == x) = true) : priceOf (c :: cs) x = c.price := by
  unfold priceOf
  simp [List.find?_cons, h]

theorem priceOf_cons_neg (c : Snack) (cs : List Snack) (x : Nat)
    (h : (c.id == x) = false) : priceOf (c :: cs) x = priceOf cs x := by
  unfold priceOf
  simp only [List.find?_cons, h, cond_false]

theorem priceOf_eq_zero_of_not_mem (cs : List Snack) (x : Nat)
    (h : x ∉ cs.map Snack.id) : priceOf cs x = 0 := by
  unfold priceOf
  have hnone : cs.find? (fun s => s.id == x) = none := by
    rw [List.find?_eq_none]
    intro s hs
    simp only [beq_iff_eq]
    intro he
    exact h (List.mem_map.mpr ⟨s, hs, he⟩)
  rw [hnone]

theorem specSnackSubtotal_line_cons (catalog : List Snack) (l : SnackOrder)
    (ls : List SnackOrder) :
    specSnackSubtotal catalog (l :: ls) =
      priceOf catalog l.snackID * (l.quantity : Rat) +
        specSnackSubtotal catalog ls := by
  simp [specSnackSubtotal]

/-- Dropping a catalog snack no request line names leaves the spec subtotal
unchanged. -/
theorem specSnackSubtotal_cons_of_no_line (c : Snack) (cs : List Snack)
    (lines : List SnackOrder)
    (h : ∀ l ∈ lines, (l.snackID == c.id) = false) :
    specSnackSubtotal (c :: cs) lines = specSnackSubtotal cs lines := by
  unfold specSnackSubtotal
  congr 1
  apply List.map_congr_left
  intro l hl
  rw [priceOf_cons_neg c cs l.snackID]
  have hf := h l hl
  simp only [beq_eq_false_iff_ne, ne_eq] at hf ⊢
  omega

/-- Peeling one catalog snack off the spec subtotal: it contributes its
price times the first (unique) matching line's quantity. -/
theorem specSnackSubtotal_catalog_cons (c : Snack) (cs : List Snack)
    (hcid : c.id ∉ cs.map Snack.id) :
    ∀ lines : List SnackOrder, (lines.map SnackOrder.snackID).Nodup →
      specSnackSubtotal (c :: cs) lines =
        (match lines.find? (fun l => l.snackID == c.id) with
         | some l0 => c.price * (l0.quantity : Rat)
         | none => 0) + specSnackSubtotal cs lines := by
  intro lines
  induction lines with
  | nil => intro _; simp [specSnackSubtotal]
  | cons l ls ih =>
    intro hl
    simp only [List.map_cons, List.nodup_cons] at hl
    obtain ⟨hnotin, hnd⟩ := hl
    rw [specSnackSubtotal_line_cons, specSnackSubtotal_line_cons]
    by_cases h : (l.snackID == c.id) = true
    · simp only [List.find?_cons, h, cond_true]
      have hc : (c.id == l.snackID) = true := by
        simp only [beq_iff_eq] at h ⊢
        omega
      rw [priceOf_cons_pos c cs _ hc]
      have hzero : priceOf cs l.snackID = 0 := by
        apply priceOf_eq_zero_of_not_mem
        have hlc : l.snackID = c.id := by simpa using h
        rw [hlc]
        exact hcid
      have hno : ∀ l2 ∈ ls, (l2.snackID == c.id) = false := by
        intro l2 hl2
        have hlc : l.snackID = c.id := by simpa using h
        simp only [beq_eq_false_iff_ne, ne_eq]
        intro he
        exact hnotin (List.mem_map.mpr ⟨l2, hl2, by omega⟩)
      rw [specSnackSubtotal_cons_of_no_line c cs ls hno, hzero]
      ring
    · have hb : (l.snackID == c.id) = false := by simpa using h
      simp only [List.find?_cons, hb, cond_false]
      have hcneg : (c.id == l.snackID) = false := by
        simp only [beq_iff_eq] at h
        simp only [beq_eq_false_iff_ne, ne_eq]
        omega
      rw [priceOf_cons_neg c cs _ hcneg, ih hnd]
      ring

/-- With duplicate-free catalog ids and duplicate-free requested line ids,
the code's matched-snack total equals the spec's per-line subtotal. -/
theorem matchedSum_eq_specSubtotal (catalog : List Snack)
    (lines : List SnackOrder) (hc : (catalog.map Snack.id).Nodup)
    (hl : (lines.map SnackOrder.snackID).Nodup) :
    ((matchedSnacks catalog lines).map
        (fun p => p.1.price * (p.2 : Rat))).sum =
      specSnackSubtotal catalog lines := by
  induction catalog with
  | nil =>
    simp only [matchedSnacks, List.filterMap_nil, List.map_nil, List.sum_nil]
    symm
    apply List.sum_eq_zero
    intro x hx
    rcases List.mem_map.mp hx with ⟨l, -, hval⟩
    have hz : priceOf [] l.snackID = 0 := rfl
    rw [← hval, hz, zero_mul]
  | cons c cs ih =>
    simp only [List.map_cons, List.nodup_cons] at hc
    obtain ⟨hcid, hcnd⟩ := hc
    unfold matchedSnacks
    rw [List.filterMap_cons]
    rw [specSnackSubtotal_catalog_cons c cs hcid lines hl]
    cases hfind : lines.find? (fun l => l.snackID == c.id) with
    | none =>
      simp only [hfind, Option.map_none']
      have ihx := ih hcnd
      unfold matchedSnacks at ihx
      rw [ihx]
      ring
    | some l0 =>
      simp only [hfind, Option.map_some', List.map_cons, List.sum_cons]
      have ihx := ih hcnd
      unfold matchedSnacks at ihx
      rw [ihx]

/-- C3 (amended): for a request that passes validation, has no conflicting
reservation, and whose snack lines reference pairwise-distinct snack ids
(against a duplicate-free catalog), creation succeeds with total cost
`pricePerHour * hours + Σ catalog-price * quantity` over the requested
lines, and `CalculateReservationCost` returns the same total for the same
inputs. -/
theorem createReservation_totalCost_formula (now : Int) (st : DBState)
    (req : CreateReservationRequest) (room : Room)
    (htime : timeConstraintsOK now req.startTime req.endTime)
    (hroom : findAvailableRoom st.rooms req.roomID = some room)
    (hcap : req.visitorCount ≤ room.capacity)
    (hconf : overlappingCount st.reservations req.roomID
      req.startTime req.endTime = 0)
    (hcat : (st.snacks.map Snack.id).Nodup)
    (hlines : (req.snacks.map SnackOrder.snackID).Nodup) :
    Except.map (fun p => p.2.totalCost) (createReservation now st req) =
        .ok (room.pricePerHour *
            (((req.endTime - req.startTime : Int) : Rat) / 3600) +
          specSnackSubtotal st.snacks req.snacks) ∧
      Except.map (fun r => r.totalCost)
          (calculateReservationCost now st
            ⟨req.roomID, req.snacks, req.startTime, req.endTime⟩) =
        .ok (room.pricePerHour *
            (((req.endTime - req.startTime : Int) : Rat) / 3600) +
          specSnackSubtotal st.snacks req.snacks) := by
  have hval : validateReservationTimes now req.startTime req.endTime = none :=
    (validateReservationTimes_eq_none now _ _).mpr htime
  constructor
  · unfold createReservation
    rw [hval, hroom]
    dsimp only
    rw [if_neg (by omega), if_neg (by rw [gt_iff_lt, hconf]; exact lt_irrefl 0)]
    dsimp only [Except.map]
    rw [snackCostTotal_eq_sum,
      matchedSum_eq_specSubtotal st.snacks req.snacks hcat hlines]
  · unfold calculateReservationCost
    rw [hval]
    dsimp only
    rw [hroom]
    dsimp only [Except.map]
    have hshift := foldl_add_eq_sum (fun sl : SnackLine => sl.subtotal)
      ((matchedSnacks st.snacks req.snacks).map (fun p =>
        SnackLine.mk p.1.id p.1.name p.1.category p.1.price p.2
          (p.1.price * (p.2 : Rat))))
      (room.pricePerHour * (((req.endTime - req.startTime : Int) : Rat) / 3600))
    rw [hshift, List.map_map]
    have hcomp :
        ((fun sl : SnackLine => sl.subtotal) ∘ (fun p : Snack × Int =>
          SnackLine.mk p.1.id p.1.name p.1.category p.1.price p.2
            (p.1.price * (p.2 : Rat)))) =
          fun p : Snack × Int => p.1.price * (p.2 : Rat) := rfl
    rw [hcomp, matchedSum_eq_specSubtotal st.snacks req.snacks hcat hlines]

/-- A request with two snack lines for the same snack id 1 (quantities 1
and 2). -/
def wC3dupReq : CreateReservationRequest :=
  ⟨1, 7, 100, 3700, 4, [⟨1, 1⟩, ⟨1, 2⟩]⟩

/-- C3 (counterexample): with duplicate snack lines for the same id, the
code charges only the first matching line once (total 130), while the
spec's sum over all requested lines gives 150. -/
theorem createReservation_totalCost_counterexample :
    Except.map (fun p => p.2.totalCost) (createReservation 0 wState wC3dupReq) =
        .ok (130 : Rat) ∧
      wRoom.pricePerHour *
          (((wC3dupReq.endTime - wC3dupReq.startTime : Int) : Rat) / 3600) +
        specSnackSubtotal wState.snacks wC3dupReq.snacks = (150 : Rat) ∧
      (130 : Rat) ≠ (150 : Rat) :=
  ⟨by with_unfolding_all rfl, by with_unfolding_all rfl,
   by with_unfolding_all decide⟩

/-- Witness for C3 (amended) at a concrete duplicate-free request. -/
theorem createReservation_totalCost_formula_witness :
    Except.map (fun p => p.2.totalCost) (createReservation 0 wState wC8req) =
        .ok (wRoom.pricePerHour *
            (((wC8req.endTime - wC8req.startTime : Int) : Rat) / 3600) +
          specSnackSubtotal wState.snacks wC8req.snacks) ∧
      Except.map (fun r => r.totalCost)
          (calculateReservationCost 0 wState
            ⟨wC8req.roomID, wC8req.snacks, wC8req.startTime, wC8req.endTime⟩) =
        .ok (wRoom.pricePerHour *
            (((wC8req.endTime - wC8req.startTime : Int) : Rat) / 3600) +
          specSnackSubtotal wState.snacks wC8req.snacks) :=
  createReservation_totalCost_formula 0 wState wC8req wRoom (by decide)
    (by with_unfolding_all rfl) (by decide) (by with_unfolding_all rfl)
    (by with_unfolding_all decide) (by with_unfolding_all decide)

/-! ## C6: the no-overlap invariant under creation and status updates -/

theorem conflicting_iff (a b : Reservation) :
    conflicting a b = true ↔
      a.roomID = b.roomID ∧ a.status ≠ "cancelled" ∧ b.status ≠ "cancelled" ∧
        a.startTime < b.endTime ∧ b.startTime < a.endTime := by
  simp [conflicting, Bool.and_eq_true, beq_iff_eq, bne_iff_ne,
    decide_eq_true_eq, and_assoc]

/-- `CreateReservation` preserves the reservation-table invariant: the
inserted row is well-formed and the overlap check keeps it disjoint from
every non-cancelled row of the same room. -/
theorem createReservation_preserves_invariant (now : Int) (st : DBState)
    (req : CreateReservationRequest) (st2 : DBState)
    (resp : CreateReservationResponse) (hinv : reservationInvariant st)
    (h : createReservation now st req = .ok (st2, resp)) :
    reservationInvariant st2 := by
  obtain ⟨hwf, hpw⟩ := hinv
  unfold createReservation at h
  split at h
  · simp at h
  · next hval =>
    split at h
    · simp at h
    · next room hroom =>
      split at h
      · simp at h
      · next hcap =>
        split at h
        · simp at h
        · next hover =>
          have htime : timeConstraintsOK now req.startTime req.endTime :=
            (validateReservationTimes_eq_none now _ _).mp hval
          have hSE : req.startTime < req.endTime := by
            rcases htime with ⟨h1, -, -⟩
            omega
          have hcount :
              overlappingCount st.reservations req.roomID
                req.startTime req.endTime = 0 := by
            omega
          simp only [Except.ok.injEq, Prod.mk.injEq] at h
          obtain ⟨hst, -⟩ := h
          subst hst
          constructor
          · intro r hr
            rcases List.mem_append.mp hr with h1 | h2
            · exact hwf r h1
            · rcases List.mem_singleton.mp h2 with rfl
              exact hSE
          · rw [List.pairwise_append]
            refine ⟨hpw, List.pairwise_singleton _ _, ?_⟩
            intro a ha b hb
            rcases List.mem_singleton.mp hb with rfl
            rw [← Bool.not_eq_true]
            intro hconf
            rw [conflicting_iff] at hconf
            obtain ⟨hrm, hastat, -, hlt1, hlt2⟩ := hconf
            have : 0 < overlappingCount st.reservations req.roomID
                req.startTime req.endTime := by
              rw [overlappingCount_pos]
              refine ⟨a, ha, hrm, hastat, ?_⟩
              exact (threeClause_eq_intersect _ _ _ _ (hwf a ha) hSE).mpr
                ⟨hlt1, hlt2⟩
            omega

/-- `UpdateReservationStatus` preserves the invariant whenever the new
status is "cancelled" or the targeted reservation is not currently
cancelled (the set of non-cancelled rows does not grow). -/
theorem updateReservationStatus_preserves_invariant (st : DBState)
    (req : UpdateReservationStatusRequest) (st2 : DBState)
    (ev : ReservationEvent) (hinv : reservationInvariant st)
    (hsafe : req.status = "cancelled" ∨
      ∀ r ∈ st.reservations, r.id = req.reservationID →
        r.status ≠ "cancelled")
    (h : updateReservationStatus st req = .ok (st2, ev)) :
    reservationInvariant st2 := by
  obtain ⟨hwf, hpw⟩ := hinv
  unfold updateReservationStatus at h
  split at h
  · simp at h
  · split at h
    · simp at h
    · dsimp only at h
      split at h
      · simp at h
      · split at h
        · simp only [Except.ok.injEq, Prod.mk.injEq] at h
          obtain ⟨hst, -⟩ := h
          subst hst
          constructor
          · intro r hr
            rcases List.mem_map.mp hr with ⟨r0, hr0, hg⟩
            subst hg
            by_cases hid : (r0.id == req.reservationID) = true
            · simp only [hid, if_true]
              exact hwf r0 hr0
            · simp only [hid, if_false]
              exact hwf r0 hr0
          · rw [List.pairwise_map]
            refine List.Pairwise.imp_of_mem ?_ hpw
            intro a b ha hb hab
            rw [← Bool.not_eq_true] at hab ⊢
            intro hconf
            apply hab
            rw [conflicting_iff] at hconf ⊢
            have hstatus : ∀ x : Reservation, x ∈ st.reservations →
                ((if x.id == req.reservationID then
                    { x with status := req.status } else x).status ≠
                  "cancelled") →
                x.status ≠ "cancelled" := by
              intro x hx hxs
              by_cases hid : (x.id == req.reservationID) = true
              · simp only [hid, if_true] at hxs
                rcases hsafe with hcanc | hsafe2
                · exact absurd hcanc hxs
                · exact hsafe2 x hx (by simpa using hid)
              · simpa [hid] using hxs
            have hproj : ∀ x : Reservation,
                (if x.id == req.reservationID then
                    { x with status := req.status } else x).roomID = x.roomID ∧
                  (if x.id == req.reservationID then
                      { x with status := req.status } else x).startTime =
                    x.startTime ∧
                  (if x.id == req.reservationID then
                      { x with status := req.status } else x).endTime =
                    x.endTime := by
              intro x
              by_cases hid : (x.id == req.reservationID) = true <;> simp [hid]
            obtain ⟨h1, h2, h3, h4, h5⟩ := hconf
            rw [(hproj a).1, (hproj b).1] at h1
            rw [(hproj a).2.1, (hproj b).2.2] at h4
            rw [(hproj b).2.1, (hproj a).2.2] at h5
            exact ⟨h1, hstatus a ha h2, hstatus b hb h3, h4, h5⟩
        · simp at h

/-- C6 (amended): the no-overlap invariant is preserved by every successful
`CreateReservation`, and by every successful `UpdateReservationStatus`
whose new status is "cancelled" or whose target is not currently a
cancelled reservation; un-cancelling is the one unprotected transition. -/
theorem reservationInvariant_preserved :
    (∀ (now : Int) (st : DBState) (req : CreateReservationRequest)
        (st2 : DBState) (resp : CreateReservationResponse),
      reservationInvariant st →
        createReservation now st req = .ok (st2, resp) →
          reservationInvariant st2) ∧
    (∀ (st : DBState) (req : UpdateReservationStatusRequest)
        (st2 : DBState) (ev : ReservationEvent),
      reservationInvariant st →
        (req.status = "cancelled" ∨
          ∀ r ∈ st.reservations, r.id = req.reservationID →
            r.status ≠ "cancelled") →
          updateReservationStatus st req = .ok (st2, ev) →
            reservationInvariant st2) :=
  ⟨createReservation_preserves_invariant,
   updateReservationStatus_preserves_invariant⟩

def wC6cancelled : Reservation := ⟨1, 1, 7, 100, 3700, 2, 120, "cancelled"⟩

def wC6pending : Reservation := ⟨2, 1, 7, 100, 3700, 2, 120, "pending"⟩

def wC6state : DBState :=
  ⟨[wRoom], [wUser], [wChips], [wC6cancelled, wC6pending], [], 3⟩

def wC6state2 : DBState :=
  ⟨[wRoom], [wUser], [wChips],
    [⟨1, 1, 7, 100, 3700, 2, 120, "confirmed"⟩, wC6pending], [], 3⟩

/-- C6 (counterexample): un-cancelling reservation 1, which overlaps the
pending reservation 2 for the same room, takes a state satisfying the
invariant to one violating it, so `UpdateReservationStatus` does not
preserve the invariant in general. -/
theorem reservationInvariant_update_counterexample :
    reservationInvariant wC6state ∧
      (updateReservationStatus wC6state ⟨1, "confirmed"⟩).toOption.map
          Prod.fst = some wC6state2 ∧
      ¬ reservationInvariant wC6state2 :=
  ⟨by decide, by with_unfolding_all rfl, by decide⟩

def wC9updState : DBState :=
  ⟨[wRoom, wSmallRoom], [wUser], [wChips, wSoda],
    [⟨1, 1, 7, 100, 3700, 4, 120, "confirmed"⟩], [], 2⟩

def wC9updEvent : ReservationEvent :=
  ⟨1, 1, "Alpha", ⟨10, 120⟩, 7, "alice", 100, 3700, 1, 4, 120, "confirmed"⟩

/-- Witness for C6 (amended): confirming a pending reservation keeps the
invariant. -/
theorem reservationInvariant_preserved_witness :
    reservationInvariant wC9updState :=
  reservationInvariant_preserved.2 wC9state ⟨1, "confirmed"⟩ wC9updState
    wC9updEvent (by decide) (.inr (by decide)) (by with_unfolding_all rfl)
